import Mathlib

/-!
Verification of the Infy CAN module simulator (`src/app.py`) against its
natural-language specification.

Shallow embedding conventions:
* CAN identifiers and payload bytes are natural numbers (`ℕ`); the 29-bit
  packing and extraction use the exact shift/mask expressions of the source.
* Python floats on the device state are modelled as rationals (`ℚ`).  No
  claim under consideration depends on IEEE-754 rounding: the only float
  arithmetic involved is division by `2`, `1000` and `10` at values where
  the claims are stated, and assignments between fields.
* Python exceptions (`IndexError` from indexing an empty payload,
  `struct.error` from packing/unpacking the wrong number of bytes) are
  modelled with an explicit error type: fallible operations return
  `Except PyErr _`, and stateful handlers return the state reached at the
  point of the exception together with the outcome.
* The serialized bytes of `struct.pack('>f', x)` (IEEE-754 binary32) are
  kept abstract as the rational pair they encode (`ReplyData.floatPair`):
  the router only ever tests that value for truthiness (it is always a
  non-empty 8-byte payload), and no claim inspects those bytes.
-/

/-- Python exceptions relevant to the payload handlers:
`indexError` for out-of-range indexing, `structError` for
`struct.pack`/`struct.unpack` size or range failures. -/
inductive PyErr where
  | indexError
  | structError
  deriving Repr, DecidableEq

/-- Device state of `InfyModuleSimulator.__init__` (app.py lines 12-29):
module / group address, simulated electrical quantities and capability
constants, and the power flag.  Python floats are modelled as `ℚ`. -/
structure DeviceState where
  module_id : ℕ
  group_id : ℕ
  voltage_out : ℚ
  current_out : ℚ
  set_voltage : ℚ
  set_current : ℚ
  max_current : ℚ
  cap_voltage_max : ℚ
  cap_voltage_min : ℚ
  cap_power_rated : ℚ
  is_power_on : Bool
  deriving Repr, DecidableEq

/-- The defaults of `InfyModuleSimulator.__init__` with
`module_id=0x00, group_id=0x00` as in `__main__` (app.py lines 12-29, 282). -/
def initial_state : DeviceState :=
  { module_id := 0x00
    group_id := 0x00
    voltage_out := 0
    current_out := 0
    set_voltage := 500
    set_current := 10
    max_current := 128 / 5       -- 25.6
    cap_voltage_max := 750
    cap_voltage_min := 100
    cap_power_rated := 15000
    is_power_on := false }

/-! ## Identifier codec -/

/-- Identifier packing of `_send_response` (app.py line 182):
`(err << 26) | (device << 22) | (cmd << 16) | (dest << 8) | src`. -/
def encode_id (err device cmd dest src : ℕ) : ℕ :=
  (err <<< 26) ||| (device <<< 22) ||| (cmd <<< 16) ||| (dest <<< 8) ||| src

/-- Error-code field extraction of `_process_message` (app.py line 105). -/
def decode_err (canId : ℕ) : ℕ := (canId >>> 26) &&& 0x07

/-- Device-scope field extraction of `_process_message` (app.py line 106). -/
def decode_device (canId : ℕ) : ℕ := (canId >>> 22) &&& 0x0F

/-- Command field extraction of `_process_message` (app.py line 107). -/
def decode_cmd (canId : ℕ) : ℕ := (canId >>> 16) &&& 0x3F

/-- Destination field extraction of `_process_message` (app.py line 108). -/
def decode_dest (canId : ℕ) : ℕ := (canId >>> 8) &&& 0xFF

/-- Source field extraction of `_process_message` (app.py line 109),
also used by the self-echo filter of `_receive_loop` (line 89). -/
def decode_src (canId : ℕ) : ℕ := canId &&& 0xFF

/-! ## Frame filtering (`_receive_loop` and `_process_message`) -/

/-- The `is_for_me` computation of `_process_message` (app.py lines 113-121),
with the exact if/elif shape of the source. -/
def is_for_me (st : DeviceState) (canId : ℕ) : Bool :=
  if decode_dest canId = 0x3F then true
  else if decode_device canId = 0x0A ∧ decode_dest canId = st.module_id then true
  else if decode_device canId = 0x0B ∧ decode_dest canId = st.group_id then true
  else false

/-- Whether a received frame reaches `_route_command`: the receive loop
drops frames whose low identifier byte equals the module id
(app.py lines 89-90), then `_process_message` routes iff `is_for_me`
(lines 122-123). -/
def frame_processed (st : DeviceState) (canId : ℕ) : Bool :=
  if decode_src canId = st.module_id then false
  else is_for_me st canId

/-- The spec's own formula for the "for me" predicate (spec §3 invariant):
destination 0x3F is always for-me; otherwise for-me iff
(scope 0x0A and destination = module id) or
(scope 0x0B and destination = group id). -/
def for_me_spec (mid gid canId : ℕ) : Bool :=
  decide (decode_dest canId = 0x3F
    ∨ (decode_device canId = 0x0A ∧ decode_dest canId = mid)
    ∨ (decode_device canId = 0x0B ∧ decode_dest canId = gid))

/-! ## Payload codecs -/

/-- Truncation toward zero, the semantics of Python `int()` on a float,
here on the exact rational value. -/
def pyInt (q : ℚ) : ℤ :=
  Int.sign q.num * ((q.num.natAbs / q.den : ℕ) : ℤ)

/-- Python slice `data[a:b]` on a byte sequence. -/
def pySlice (data : List ℕ) (a b : ℕ) : List ℕ :=
  (data.drop a).take (b - a)

/-- Semantics of `struct.unpack('>I', bs)[0]`: exactly four bytes are
required, otherwise `struct.error`; the value is big-endian. -/
def unpack_u32 (bs : List ℕ) : Except PyErr ℕ :=
  match bs with
  | [a, b, c, d] => .ok (a * 16777216 + b * 65536 + c * 256 + d)
  | _ => .error .structError

/-- Semantics of `struct.pack('>I', n)`: the integer must lie in
`[0, 2^32)`, otherwise `struct.error`; output is the four big-endian bytes. -/
def pack_u32 (n : ℤ) : Except PyErr (List ℕ) :=
  if 0 ≤ n ∧ n < 4294967296 then
    .ok [n.toNat / 16777216 % 256, n.toNat / 65536 % 256, n.toNat / 256 % 256, n.toNat % 256]
  else .error .structError

/-- Semantics of `struct.pack('>II', a, b)`. -/
def pack_u32_pair (a b : ℤ) : Except PyErr (List ℕ) :=
  match pack_u32 a with
  | .error e => .error e
  | .ok x =>
    match pack_u32 b with
    | .error e => .error e
    | .ok y => .ok (x ++ y)

/-- Semantics of `struct.pack('>H', n)`: the integer must lie in
`[0, 2^16)`, otherwise `struct.error`; output is the two big-endian bytes. -/
def pack_u16 (n : ℤ) : Except PyErr (List ℕ) :=
  if 0 ≤ n ∧ n < 65536 then
    .ok [n.toNat / 256 % 256, n.toNat % 256]
  else .error .structError

/-- Semantics of `struct.pack('>HHHH', a, b, c, d)`. -/
def pack_u16_quad (a b c d : ℤ) : Except PyErr (List ℕ) :=
  match pack_u16 a with
  | .error e => .error e
  | .ok w =>
    match pack_u16 b with
    | .error e => .error e
    | .ok x =>
      match pack_u16 c with
      | .error e => .error e
      | .ok y =>
        match pack_u16 d with
        | .error e => .error e
        | .ok z => .ok (w ++ x ++ y ++ z)

/-- Reply payload produced by a command handler.  Byte-level payloads are
listed explicitly; the two `struct.pack('>f', _)` values of the float read
commands are kept as the rational pair they serialize (binary32 encoding
abstracted; always 8 bytes on the wire, and no claim inspects them). -/
inductive ReplyData where
  | bytes (bs : List ℕ)
  | floatPair (v c : ℚ)
  deriving Repr, DecidableEq

/-- Python truthiness of a reply payload (`if reply_data:` at app.py
line 175): `None` is handled by `Option` outside; a byte string is truthy
iff non-empty; a float pair serializes to 8 bytes, always truthy. -/
def ReplyData.truthy : ReplyData → Bool
  | .bytes bs => !bs.isEmpty
  | .floatPair _ _ => true

/-! ## Command handlers (app.py lines 190-277) -/

/-- `_handle_read_module_float` (app.py lines 190-195): two big-endian
binary32 values, voltage then current. -/
def handle_read_module_float (st : DeviceState) : ReplyData :=
  .floatPair st.voltage_out st.current_out

/-- `_handle_read_system_float` (app.py lines 252-254): single-module
system, delegates to the module read. -/
def handle_read_system_float (st : DeviceState) : ReplyData :=
  handle_read_module_float st

/-- `_handle_read_status` (app.py lines 197-204): four reserved zero
bytes, ambient temperature 25, three reserved zero bytes. -/
def handle_read_status : List ℕ :=
  [0x00, 0x00, 0x00, 0x00, 25, 0x00, 0x00, 0x00]

/-- `_handle_power_control` (app.py lines 206-219): byte 0 zero powers
on (measured voltage follows the setpoint, measured current is half the
setpoint current), nonzero powers off (measured values zeroed).  Indexing
an empty payload raises `IndexError` before any mutation. -/
def handle_power_control (data : List ℕ) (st : DeviceState) :
    DeviceState × Except PyErr Unit :=
  match data with
  | [] => (st, .error .indexError)
  | b :: _ =>
    if b = 0x00 then
      ({ st with is_power_on := true
                 voltage_out := st.set_voltage
                 current_out := st.set_current / 2 }, .ok ())
    else
      ({ st with is_power_on := false
                 voltage_out := 0
                 current_out := 0 }, .ok ())

/-- `_handle_read_power_state` (app.py lines 221-224): one state byte
(0x00 when powered on, 0x01 when off) padded with seven zero bytes. -/
def handle_read_power_state (st : DeviceState) : List ℕ :=
  [if st.is_power_on then 0x00 else 0x01, 0, 0, 0, 0, 0, 0, 0]

/-- `_handle_set_output` (app.py lines 226-244): bytes 0-3 are the
voltage in mV, bytes 4-7 the current in mA, both big-endian; the
setpoints are stored divided by 1000, and when powered on the measured
voltage follows the new setpoint.  An undersized payload raises
`struct.error` before any mutation. -/
def handle_set_output (data : List ℕ) (st : DeviceState) :
    DeviceState × Except PyErr Unit :=
  match unpack_u32 (pySlice data 0 4) with
  | .error e => (st, .error e)
  | .ok v_val =>
    match unpack_u32 (pySlice data 4 8) with
    | .error e => (st, .error e)
    | .ok c_val =>
      let st1 := { st with set_voltage := (v_val : ℚ) / 1000
                           set_current := (c_val : ℚ) / 1000 }
      let st2 := if st1.is_power_on then { st1 with voltage_out := st1.set_voltage } else st1
      (st2, .ok ())

/-- `_handle_set_output_fixed` (app.py lines 276-277): delegates to
`_handle_set_output`. -/
def handle_set_output_fixed (data : List ℕ) (st : DeviceState) :
    DeviceState × Except PyErr Unit :=
  handle_set_output data st

/-- `_handle_read_output_setting` (app.py lines 246-250): current
setpoints, truncated to integers after scaling to mV/mA, packed `>II`. -/
def handle_read_output_setting (st : DeviceState) : Except PyErr (List ℕ) :=
  pack_u32_pair (pyInt (st.set_voltage * 1000)) (pyInt (st.set_current * 1000))

/-- `_handle_read_system_fixed` (app.py lines 256-259): measured values
scaled to mV/mA, floor-clamped at zero, packed `>II`. -/
def handle_read_system_fixed (st : DeviceState) : Except PyErr (List ℕ) :=
  pack_u32_pair (max 0 (pyInt (st.voltage_out * 1000))) (max 0 (pyInt (st.current_out * 1000)))

/-- `_handle_read_module_fixed` (app.py lines 261-262): delegates to the
system fixed read. -/
def handle_read_module_fixed (st : DeviceState) : Except PyErr (List ℕ) :=
  handle_read_system_fixed st

/-- `_handle_read_module_info` (app.py lines 264-269): capability
constants scaled, packed `>HHHH`. -/
def handle_read_module_info (st : DeviceState) : Except PyErr (List ℕ) :=
  pack_u16_quad (pyInt (st.cap_voltage_max * 10)) (pyInt (st.cap_voltage_min * 10))
    (pyInt (st.max_current * 10)) (pyInt (st.cap_power_rated / 10))

/-- `_handle_read_module_external` (app.py lines 271-274): measured
voltage ×10 clamped at zero, allowed current ×10 when powered else 0,
two zero words, packed `>HHHH`. -/
def handle_read_module_external (st : DeviceState) : Except PyErr (List ℕ) :=
  pack_u16_quad (max 0 (pyInt (st.voltage_out * 10)))
    (if st.is_power_on then pyInt (st.max_current * 10) else 0) 0 0

/-! ## Command router (app.py lines 127-186) -/

/-- An outbound bus frame: 29-bit identifier plus payload. -/
structure Frame where
  canId : ℕ
  data : ReplyData
  deriving Repr, DecidableEq

/-- `_send_response` (app.py lines 178-186): reply identifier is error 0,
device scope 0x0A, the echoed command, the requester's address as
destination and this module as source. -/
def send_response (cmd : ℕ) (data : ReplyData) (target_addr mid : ℕ) : Frame :=
  ⟨encode_id 0x00 0x0A cmd target_addr mid, data⟩

/-- The dispatch of `_route_command` (app.py lines 127-173): the device
state after the handler runs (or after the exception escaped), and on
normal completion the optional `reply_data`. -/
def route_command (cmd : ℕ) (data : List ℕ) (device_mode dest_addr : ℕ)
    (st : DeviceState) : DeviceState × Except PyErr (Option ReplyData) :=
  if cmd = 0x01 then (st, .ok (some (handle_read_system_float st)))
  else if cmd = 0x03 then (st, .ok (some (handle_read_module_float st)))
  else if cmd = 0x04 then (st, .ok (some (.bytes handle_read_status)))
  else if cmd = 0x08 then
    (st, (handle_read_system_fixed st).map (fun bs => some (.bytes bs)))
  else if cmd = 0x09 then
    (st, (handle_read_module_fixed st).map (fun bs => some (.bytes bs)))
  else if cmd = 0x0A then
    (st, (handle_read_module_info st).map (fun bs => some (.bytes bs)))
  else if cmd = 0x0C then
    (st, (handle_read_module_external st).map (fun bs => some (.bytes bs)))
  else if cmd = 0x1A then
    match handle_power_control data st with
    | (st1, .error e) => (st1, .error e)
    | (st1, .ok _) =>
      if device_mode = 0x0A ∧ dest_addr ≠ 0x3F then
        (st1, .ok (some (.bytes (handle_read_power_state st1))))
      else (st1, .ok none)
  else if cmd = 0x1B then
    match handle_set_output data st with
    | (st1, .error e) => (st1, .error e)
    | (st1, .ok _) =>
      (st1, (handle_read_output_setting st1).map (fun bs => some (.bytes bs)))
  else if cmd = 0x1C then
    match handle_set_output_fixed data st with
    | (st1, .error e) => (st1, .error e)
    | (st1, .ok _) =>
      if dest_addr ≠ 0x3F then
        (st1, (handle_read_output_setting st1).map (fun bs => some (.bytes bs)))
      else (st1, .ok none)
  else (st, .ok none)

/-- `_route_command` including the final transmission step (app.py
lines 175-176): a reply frame is sent iff `reply_data` is truthy, built
by `_send_response` toward the request's source address. -/
def route_and_respond (cmd : ℕ) (data : List ℕ) (remote_src device_mode dest_addr : ℕ)
    (st : DeviceState) : DeviceState × Except PyErr (Option Frame) :=
  match route_command cmd data device_mode dest_addr st with
  | (st1, .error e) => (st1, .error e)
  | (st1, .ok none) => (st1, .ok none)
  | (st1, .ok (some rd)) =>
    (st1, .ok (if rd.truthy then some (send_response cmd rd remote_src st1.module_id) else none))

/-! ## Heartbeat emitter (app.py lines 61-80) -/

/-- Heartbeat identifier of `_broadcast_heartbeat_loop` (app.py line 69):
`0x0757F800 | module_id`. -/
def heartbeat_id (mid : ℕ) : ℕ := 0x0757F800 ||| mid

/-- Heartbeat payload (app.py line 73): eight zero bytes. -/
def heartbeat_payload : List ℕ := List.replicate 8 0x00

/-- Semantics of `random.uniform(a, b)`: `a + (b - a) * u` for a draw
`u` of `random.random()` in `[0, 1]`. -/
def random_uniform (a b u : ℚ) : ℚ := a + (b - a) * u

/-- The per-cycle sleep of `_broadcast_heartbeat_loop` (app.py line 79):
`random.uniform(0.390, 0.410)` seconds, parameterized by the draw `u`. -/
def heartbeat_sleep (u : ℚ) : ℚ := random_uniform (390 / 1000) (410 / 1000) u

/-! ## Bit-packing arithmetic helpers -/

lemma lor_eq_add_helper (k a b : ℕ) (hb : b < 2 ^ k) : (a * 2 ^ k) ||| b = a * 2 ^ k + b := by
  have h := Nat.mul_add_lt_is_or hb a
  rw [Nat.mul_comm (2 ^ k) a] at h
  exact h.symm

lemma encode_id_eq_add {err device cmd dest src : ℕ}
    (hd : device < 16) (hc : cmd < 64) (hde : dest < 256) (hs : src < 256) :
    encode_id err device cmd dest src =
      err * 2 ^ 26 + device * 2 ^ 22 + cmd * 2 ^ 16 + dest * 2 ^ 8 + src := by
  unfold encode_id
  rw [Nat.shiftLeft_eq, Nat.shiftLeft_eq, Nat.shiftLeft_eq, Nat.shiftLeft_eq]
  have e1 : device * 2 ^ 22 < 2 ^ 26 := by
    calc device * 2 ^ 22 ≤ 15 * 2 ^ 22 := Nat.mul_le_mul_right _ (by omega)
    _ < 2 ^ 26 := by norm_num
  have e2 : cmd * 2 ^ 16 < 2 ^ 22 := by
    calc cmd * 2 ^ 16 ≤ 63 * 2 ^ 16 := Nat.mul_le_mul_right _ (by omega)
    _ < 2 ^ 22 := by norm_num
  have e3 : dest * 2 ^ 8 < 2 ^ 16 := by
    calc dest * 2 ^ 8 ≤ 255 * 2 ^ 8 := Nat.mul_le_mul_right _ (by omega)
    _ < 2 ^ 16 := by norm_num
  have h1 : err * 2 ^ 26 ||| device * 2 ^ 22 = err * 2 ^ 26 + device * 2 ^ 22 :=
    lor_eq_add_helper 26 err _ e1
  have f2 : err * 2 ^ 26 + device * 2 ^ 22 = (err * 2 ^ 4 + device) * 2 ^ 22 := by ring
  have h2 : (err * 2 ^ 26 + device * 2 ^ 22) ||| cmd * 2 ^ 16
      = err * 2 ^ 26 + device * 2 ^ 22 + cmd * 2 ^ 16 := by
    rw [f2, lor_eq_add_helper 22 _ _ e2]; try ring
  have f3 : err * 2 ^ 26 + device * 2 ^ 22 + cmd * 2 ^ 16
      = (err * 2 ^ 10 + device * 2 ^ 6 + cmd) * 2 ^ 16 := by ring
  have h3 : (err * 2 ^ 26 + device * 2 ^ 22 + cmd * 2 ^ 16) ||| dest * 2 ^ 8
      = err * 2 ^ 26 + device * 2 ^ 22 + cmd * 2 ^ 16 + dest * 2 ^ 8 := by
    rw [f3, lor_eq_add_helper 16 _ _ e3]; try ring
  have f4 : err * 2 ^ 26 + device * 2 ^ 22 + cmd * 2 ^ 16 + dest * 2 ^ 8
      = (err * 2 ^ 18 + device * 2 ^ 14 + cmd * 2 ^ 8 + dest) * 2 ^ 8 := by ring
  have h4 : (err * 2 ^ 26 + device * 2 ^ 22 + cmd * 2 ^ 16 + dest * 2 ^ 8) ||| src
      = err * 2 ^ 26 + device * 2 ^ 22 + cmd * 2 ^ 16 + dest * 2 ^ 8 + src := by
    rw [f4, lor_eq_add_helper 8 _ _ hs]; try ring
  rw [h1, h2, h3, h4]

lemma and_mask_mod (n k : ℕ) : n &&& (2 ^ k - 1) = n % 2 ^ k :=
  Nat.and_pow_two_sub_one_eq_mod n k

lemma decode_encode_fields {err device cmd dest src : ℕ}
    (he : err < 8) (hd : device < 16) (hc : cmd < 64) (hde : dest < 256) (hs : src < 256) :
    decode_err (encode_id err device cmd dest src) = err ∧
    decode_device (encode_id err device cmd dest src) = device ∧
    decode_cmd (encode_id err device cmd dest src) = cmd ∧
    decode_dest (encode_id err device cmd dest src) = dest ∧
    decode_src (encode_id err device cmd dest src) = src := by
  rw [encode_id_eq_add hd hc hde hs]
  unfold decode_err decode_device decode_cmd decode_dest decode_src
  rw [Nat.shiftRight_eq_div_pow, Nat.shiftRight_eq_div_pow, Nat.shiftRight_eq_div_pow,
    Nat.shiftRight_eq_div_pow]
  have m3 := and_mask_mod (err * 2 ^ 26 + device * 2 ^ 22 + cmd * 2 ^ 16 + dest * 2 ^ 8 + src) 3
  have m4 := and_mask_mod ((err * 2 ^ 26 + device * 2 ^ 22 + cmd * 2 ^ 16 + dest * 2 ^ 8 + src) / 2 ^ 22) 4
  have m6 := and_mask_mod ((err * 2 ^ 26 + device * 2 ^ 22 + cmd * 2 ^ 16 + dest * 2 ^ 8 + src) / 2 ^ 16) 6
  have m8 := and_mask_mod ((err * 2 ^ 26 + device * 2 ^ 22 + cmd * 2 ^ 16 + dest * 2 ^ 8 + src) / 2 ^ 8) 8
  have m3' := and_mask_mod ((err * 2 ^ 26 + device * 2 ^ 22 + cmd * 2 ^ 16 + dest * 2 ^ 8 + src) / 2 ^ 26) 3
  have m8' := and_mask_mod (err * 2 ^ 26 + device * 2 ^ 22 + cmd * 2 ^ 16 + dest * 2 ^ 8 + src) 8
  norm_num at m3 m4 m6 m8 m3' m8' ⊢
  rw [m3', m4, m6, m8, m8']
  refine ⟨by omega, by omega, by omega, by omega, by omega⟩

/-- C2: for every field tuple within its declared bit width
(errorCode ≤ 7, scope ≤ 15, command ≤ 0x3F, dest ≤ 0xFF, src ≤ 0xFF),
packing the fields into the 29-bit identifier with the shifts of
`_send_response` and extracting them with the shifts and masks of
`_process_message` returns exactly the original tuple. -/
theorem c2_id_roundtrip (err device cmd dest src : ℕ)
    (he : err ≤ 7) (hd : device ≤ 15) (hc : cmd ≤ 0x3F) (hde : dest ≤ 0xFF) (hs : src ≤ 0xFF) :
    decode_err (encode_id err device cmd dest src) = err ∧
    decode_device (encode_id err device cmd dest src) = device ∧
    decode_cmd (encode_id err device cmd dest src) = cmd ∧
    decode_dest (encode_id err device cmd dest src) = dest ∧
    decode_src (encode_id err device cmd dest src) = src :=
  decode_encode_fields (by omega) (by omega) (by omega) (by omega) (by omega)

/-- Witness for C2 at the concrete tuple (5, 0x0A, 0x1B, 0x3F, 0x01). -/
theorem c2_id_roundtrip_witness :
    decode_err (encode_id 5 0x0A 0x1B 0x3F 0x01) = 5 ∧
    decode_device (encode_id 5 0x0A 0x1B 0x3F 0x01) = 0x0A ∧
    decode_cmd (encode_id 5 0x0A 0x1B 0x3F 0x01) = 0x1B ∧
    decode_dest (encode_id 5 0x0A 0x1B 0x3F 0x01) = 0x3F ∧
    decode_src (encode_id 5 0x0A 0x1B 0x3F 0x01) = 0x01 :=
  c2_id_roundtrip 5 0x0A 0x1B 0x3F 0x01 (by decide) (by decide) (by decide) (by decide) (by decide)

/-- C1: a received frame reaches the router iff its source byte differs
from the module id and the frame is "for me" in the sense of the spec
formula (broadcast destination 0x3F always; otherwise unicast scope with
the module id, or group scope with the group id), for every 29-bit
identifier. -/
theorem c1_filter_matches_spec (st : DeviceState) (canId : ℕ) (_h29 : canId < 2 ^ 29) :
    frame_processed st canId =
      (decide (decode_src canId ≠ st.module_id) && for_me_spec st.module_id st.group_id canId) := by
  unfold frame_processed is_for_me for_me_spec
  split_ifs <;> simp_all

/-- Witness for C1: module defaults, identifier with scope 0x0A,
command 0x1A, destination 0x3F, source 0x01. -/
theorem c1_filter_matches_spec_witness :
    frame_processed initial_state 0x029A3F01 =
      (decide (decode_src 0x029A3F01 ≠ initial_state.module_id) &&
        for_me_spec initial_state.module_id initial_state.group_id 0x029A3F01) :=
  c1_filter_matches_spec initial_state 0x029A3F01 (by norm_num)

/-! ## Power control (C5, C10) -/

/-- C5: the power-control handler is determined by the first payload byte
alone: byte 0x00 powers on (flag true, measured voltage := setpoint
voltage, measured current := setpoint current / 2), any nonzero byte
powers off (flag false, measured values zeroed); the remaining payload
bytes and every other state field, the setpoints included, are untouched. -/
theorem c5_power_control_effect (st : DeviceState) (b : ℕ) (rest : List ℕ) :
    handle_power_control (b :: rest) st =
      (if b = 0x00 then
        { st with is_power_on := true
                  voltage_out := st.set_voltage
                  current_out := st.set_current / 2 }
      else
        { st with is_power_on := false
                  voltage_out := 0
                  current_out := 0 }, .ok ()) := by
  simp only [handle_power_control]
  split_ifs <;> rfl

/-- C10: repeated power control with the same discriminant class is
idempotent: applying the handler a second time, with any payload whose
first byte selects the same action, returns exactly the state of the
first application (and succeeds). -/
theorem c10_power_control_idempotent (st : DeviceState) (b c : ℕ) (rest rest2 : List ℕ)
    (hsame : b = 0x00 ↔ c = 0x00) :
    handle_power_control (c :: rest2) (handle_power_control (b :: rest) st).1 =
      handle_power_control (b :: rest) st := by
  unfold handle_power_control
  by_cases hb : b = 0x00
  · have hc : c = 0x00 := hsame.mp hb
    simp [hb, hc]
  · have hc : ¬ c = 0x00 := fun h => hb (hsame.mpr h)
    simp [hb, hc]

/-- Witness for C10: power-on twice from the defaults. -/
theorem c10_power_control_idempotent_witness :
    handle_power_control [0x00] (handle_power_control [0x00, 0x07] initial_state).1 =
      handle_power_control [0x00, 0x07] initial_state :=
  c10_power_control_idempotent initial_state 0x00 0x00 [0x07] [] (by decide)

/-! ## Set output (C6, C7) -/

/-- Big-endian 32-bit value of four payload bytes, as computed by
`struct.unpack('>I', _)`. -/
def be32 (a b c d : ℕ) : ℕ := a * 16777216 + b * 65536 + c * 256 + d

lemma handle_set_output_eq (st : DeviceState) (b0 b1 b2 b3 b4 b5 b6 b7 : ℕ) (rest : List ℕ) :
    handle_set_output (b0 :: b1 :: b2 :: b3 :: b4 :: b5 :: b6 :: b7 :: rest) st =
      ({ st with set_voltage := (be32 b0 b1 b2 b3 : ℚ) / 1000
                 set_current := (be32 b4 b5 b6 b7 : ℚ) / 1000
                 voltage_out :=
                   if st.is_power_on then (be32 b0 b1 b2 b3 : ℚ) / 1000 else st.voltage_out },
        .ok ()) := by
  unfold handle_set_output pySlice unpack_u32 be32
  simp only [List.drop, List.take]
  by_cases hp : st.is_power_on <;> simp [hp]

/-- C6: a well-formed 8-byte set-output payload stores the decoded
setpoints divided by 1000; the measured voltage follows the new setpoint
exactly when the device is powered on and is untouched otherwise; the
measured current, the power flag, the addresses and the capability
constants are unchanged; and the handler succeeds. -/
theorem c6_set_output_effect (st : DeviceState) (b0 b1 b2 b3 b4 b5 b6 b7 : ℕ) (rest : List ℕ) :
    (handle_set_output (b0 :: b1 :: b2 :: b3 :: b4 :: b5 :: b6 :: b7 :: rest) st).2 = .ok () ∧
    (handle_set_output (b0 :: b1 :: b2 :: b3 :: b4 :: b5 :: b6 :: b7 :: rest) st).1.set_voltage
      = (be32 b0 b1 b2 b3 : ℚ) / 1000 ∧
    (handle_set_output (b0 :: b1 :: b2 :: b3 :: b4 :: b5 :: b6 :: b7 :: rest) st).1.set_current
      = (be32 b4 b5 b6 b7 : ℚ) / 1000 ∧
    (handle_set_output (b0 :: b1 :: b2 :: b3 :: b4 :: b5 :: b6 :: b7 :: rest) st).1.voltage_out
      = (if st.is_power_on then (be32 b0 b1 b2 b3 : ℚ) / 1000 else st.voltage_out) ∧
    (handle_set_output (b0 :: b1 :: b2 :: b3 :: b4 :: b5 :: b6 :: b7 :: rest) st).1.current_out
      = st.current_out ∧
    (handle_set_output (b0 :: b1 :: b2 :: b3 :: b4 :: b5 :: b6 :: b7 :: rest) st).1.is_power_on
      = st.is_power_on ∧
    (handle_set_output (b0 :: b1 :: b2 :: b3 :: b4 :: b5 :: b6 :: b7 :: rest) st).1.module_id
      = st.module_id ∧
    (handle_set_output (b0 :: b1 :: b2 :: b3 :: b4 :: b5 :: b6 :: b7 :: rest) st).1.group_id
      = st.group_id ∧
    (handle_set_output (b0 :: b1 :: b2 :: b3 :: b4 :: b5 :: b6 :: b7 :: rest) st).1.max_current
      = st.max_current ∧
    (handle_set_output (b0 :: b1 :: b2 :: b3 :: b4 :: b5 :: b6 :: b7 :: rest) st).1.cap_voltage_max
      = st.cap_voltage_max ∧
    (handle_set_output (b0 :: b1 :: b2 :: b3 :: b4 :: b5 :: b6 :: b7 :: rest) st).1.cap_voltage_min
      = st.cap_voltage_min ∧
    (handle_set_output (b0 :: b1 :: b2 :: b3 :: b4 :: b5 :: b6 :: b7 :: rest) st).1.cap_power_rated
      = st.cap_power_rated := by
  rw [handle_set_output_eq]
  by_cases hp : st.is_power_on <;> simp [hp]

/-- The C7 request payload: `uint32BE(500000) ++ uint32BE(10000)`. -/
def c7_payload : List ℕ := [0x00, 0x07, 0xA1, 0x20, 0x00, 0x00, 0x27, 0x10]

/-- Decidable equality for handler outcomes, for concrete evaluation. -/
instance {α : Type} [DecidableEq α] : DecidableEq (Except PyErr α)
  | .ok a, .ok b =>
    if h : a = b then .isTrue (by rw [h]) else .isFalse (by simp [h])
  | .ok _, .error _ => .isFalse (by simp)
  | .error _, .ok _ => .isFalse (by simp)
  | .error a, .error b =>
    if h : a = b then .isTrue (by rw [h]) else .isFalse (by simp [h])

lemma pyInt_natCast (n : ℕ) : pyInt (n : ℚ) = n := by
  unfold pyInt
  rw [Rat.num_natCast, Rat.den_natCast]
  rcases Nat.eq_zero_or_pos n with h | h
  · subst h; simp
  · rw [Int.sign_eq_one_of_pos (by exact_mod_cast h)]
    simp

lemma read_output_setting_eq (st : DeviceState) :
    handle_read_output_setting st =
      pack_u32_pair (pyInt (st.set_voltage * 1000)) (pyInt (st.set_current * 1000)) := rfl

set_option maxRecDepth 8192 in
/-- C7: from any device state, a command-0x1B payload of
`uint32BE(500000) ++ uint32BE(10000)` makes the setpoint 500 V / 10 A,
the readback reply produced from the resulting state is exactly those
eight bytes again, and decoding that reply with the big-endian uint32
codec yields the pair (500000, 10000). -/
theorem c7_set_output_500V_10A (st : DeviceState) :
    (handle_set_output c7_payload st).1.set_voltage = 500 ∧
    (handle_set_output c7_payload st).1.set_current = 10 ∧
    handle_read_output_setting (handle_set_output c7_payload st).1 = .ok c7_payload ∧
    unpack_u32 (pySlice c7_payload 0 4) = .ok 500000 ∧
    unpack_u32 (pySlice c7_payload 4 8) = .ok 10000 := by
  have h := handle_set_output_eq st 0x00 0x07 0xA1 0x20 0x00 0x00 0x27 0x10 []
  have hpay : c7_payload = 0x00 :: 0x07 :: 0xA1 :: 0x20 :: 0x00 :: 0x00 :: 0x27 :: 0x10 :: [] :=
    rfl
  have hv : (handle_set_output c7_payload st).1.set_voltage = 500 := by
    rw [hpay, h]; norm_num [be32]
  have hc : (handle_set_output c7_payload st).1.set_current = 10 := by
    rw [hpay, h]; norm_num [be32]
  refine ⟨hv, hc, ?_, rfl, rfl⟩
  rw [read_output_setting_eq, hv, hc,
    show (500 * 1000 : ℚ) = ((500000 : ℕ) : ℚ) by norm_num,
    show (10 * 1000 : ℚ) = ((10000 : ℕ) : ℚ) by norm_num,
    pyInt_natCast, pyInt_natCast]
  rfl

/-! ## Undersized payloads (C3) -/

lemma handle_set_output_err (st : DeviceState) (data : List ℕ) (h : data.length < 8) :
    handle_set_output data st = (st, .error .structError) := by
  rcases data with _ | ⟨b0, _ | ⟨b1, _ | ⟨b2, _ | ⟨b3, _ | ⟨b4, _ | ⟨b5, _ | ⟨b6, _ | ⟨b7, tl⟩⟩⟩⟩⟩⟩⟩⟩
  · rfl
  · rfl
  · rfl
  · rfl
  · rfl
  · rfl
  · rfl
  · rfl
  · simp at h; omega

/-- C3 (status: code bug in the source): on a payload shorter than the
command requires, the handlers do not fail gracefully — power control
(0x1A) on an empty payload raises `IndexError` from `data[0]`, and set
output (0x1B / 0x1C) on a payload under 8 bytes raises `struct.error`
from `struct.unpack('>I', ...)`; the exception escapes `_route_command`
uncaught.  The device state, however, is unchanged in every such case,
and no reply is produced. -/
theorem c3_undersized_payload_raises (st : DeviceState) (device_mode dest_addr : ℕ)
    (data : List ℕ) :
    route_command 0x1A [] device_mode dest_addr st = (st, .error .indexError) ∧
    (data.length < 8 →
      route_command 0x1B data device_mode dest_addr st = (st, .error .structError) ∧
      route_command 0x1C data device_mode dest_addr st = (st, .error .structError)) := by
  refine ⟨?_, fun hlen => ⟨?_, ?_⟩⟩
  · simp [route_command, handle_power_control]
  · simp [route_command, handle_set_output_err st data hlen]
  · simp [route_command, handle_set_output_fixed, handle_set_output_err st data hlen]

/-- Witness for C3: default state, empty 0x1A payload and a 2-byte
0x1B / 0x1C payload. -/
theorem c3_undersized_payload_raises_witness :
    route_command 0x1A [] 0x0A 0x00 initial_state = (initial_state, .error .indexError) ∧
    route_command 0x1B [0x00, 0x07] 0x0A 0x00 initial_state
      = (initial_state, .error .structError) ∧
    route_command 0x1C [0x00, 0x07] 0x0A 0x00 initial_state
      = (initial_state, .error .structError) :=
  ⟨(c3_undersized_payload_raises initial_state 0x0A 0x00 [0x00, 0x07]).1,
   ((c3_undersized_payload_raises initial_state 0x0A 0x00 [0x00, 0x07]).2 (by decide)).1,
   ((c3_undersized_payload_raises initial_state 0x0A 0x00 [0x00, 0x07]).2 (by decide)).2⟩

/-! ## Read commands leave the state unchanged (C8) -/

/-- C8: routing any command other than power control (0x1A) and set
output (0x1B / 0x1C) — the seven read commands of the dispatch table and
every command outside it alike — leaves the device state unchanged. -/
theorem c8_reads_pure (st : DeviceState) (cmd : ℕ) (data : List ℕ)
    (device_mode dest_addr : ℕ)
    (h1A : cmd ≠ 0x1A) (h1B : cmd ≠ 0x1B) (h1C : cmd ≠ 0x1C) :
    (route_command cmd data device_mode dest_addr st).1 = st := by
  unfold route_command
  split_ifs <;> simp_all

/-- Witness for C8: the status read (0x04) at the default state. -/
theorem c8_reads_pure_witness :
    (route_command 0x04 [] 0x0A 0x00 initial_state).1 = initial_state :=
  c8_reads_pure initial_state 0x04 [] 0x0A 0x00 (by decide) (by decide) (by decide)

/-! ## Heartbeat (C9) -/

/-- C9: every heartbeat cycle sends identifier `0x0757F800` with the
module id in the low byte (the source field) and an 8-zero-byte payload,
and the sleep drawn by `random.uniform(0.390, 0.410)` lies within
[390 ms, 410 ms] for every draw of `random.random()` in [0, 1]. -/
theorem c9_heartbeat_frame_and_jitter (mid : ℕ) (u : ℚ)
    (hmid : mid < 256) (h0 : 0 ≤ u) (h1 : u ≤ 1) :
    heartbeat_id mid = 0x0757F800 + mid ∧
    decode_src (heartbeat_id mid) = mid ∧
    heartbeat_payload = [0, 0, 0, 0, 0, 0, 0, 0] ∧
    390 / 1000 ≤ heartbeat_sleep u ∧ heartbeat_sleep u ≤ 410 / 1000 := by
  have hid : heartbeat_id mid = 0x0757F800 + mid := by
    unfold heartbeat_id
    have h : (0x0757F800 : ℕ) = 0x0757F8 * 2 ^ 8 := by norm_num
    rw [h, lor_eq_add_helper 8 0x0757F8 mid (by omega)]
  refine ⟨hid, ?_, rfl, ?_, ?_⟩
  · rw [hid]
    unfold decode_src
    have h := and_mask_mod (0x0757F800 + mid) 8
    norm_num at h ⊢
    rw [h]
    omega
  · unfold heartbeat_sleep random_uniform
    linarith
  · unfold heartbeat_sleep random_uniform
    linarith

/-- Witness for C9: module id 0x3B and the median draw. -/
theorem c9_heartbeat_frame_and_jitter_witness :
    heartbeat_id 0x3B = 0x0757F800 + 0x3B ∧
    decode_src (heartbeat_id 0x3B) = 0x3B ∧
    heartbeat_payload = [0, 0, 0, 0, 0, 0, 0, 0] ∧
    390 / 1000 ≤ heartbeat_sleep (1 / 2) ∧ heartbeat_sleep (1 / 2) ≤ 410 / 1000 :=
  c9_heartbeat_frame_and_jitter 0x3B (1 / 2) (by norm_num) (by norm_num) (by norm_num)

/-! ## Reply construction facts (toward C4) -/

lemma pack_u32_ok_length (n : ℤ) (bs : List ℕ) (h : pack_u32 n = .ok bs) : bs.length = 4 := by
  unfold pack_u32 at h
  split_ifs at h
  cases h; rfl

lemma pack_u16_ok_length (n : ℤ) (bs : List ℕ) (h : pack_u16 n = .ok bs) : bs.length = 2 := by
  unfold pack_u16 at h
  split_ifs at h
  cases h; rfl

lemma pack_u32_pair_ok_length (a b : ℤ) (bs : List ℕ) (h : pack_u32_pair a b = .ok bs) :
    bs.length = 8 := by
  unfold pack_u32_pair at h
  cases h1 : pack_u32 a with
  | error e => rw [h1] at h; simp at h
  | ok x =>
    rw [h1] at h
    cases h2 : pack_u32 b with
    | error e => rw [h2] at h; simp at h
    | ok y =>
      rw [h2] at h
      simp only [Except.ok.injEq] at h
      rw [← h]
      simp [pack_u32_ok_length a x h1, pack_u32_ok_length b y h2]

lemma pack_u16_quad_ok_length (a b c d : ℤ) (bs : List ℕ) (h : pack_u16_quad a b c d = .ok bs) :
    bs.length = 8 := by
  unfold pack_u16_quad at h
  cases h1 : pack_u16 a with
  | error e => rw [h1] at h; simp at h
  | ok w =>
    rw [h1] at h
    cases h2 : pack_u16 b with
    | error e => rw [h2] at h; simp at h
    | ok x =>
      rw [h2] at h
      cases h3 : pack_u16 c with
      | error e => rw [h3] at h; simp at h
      | ok y =>
        rw [h3] at h
        cases h4 : pack_u16 d with
        | error e => rw [h4] at h; simp at h
        | ok z =>
          rw [h4] at h
          simp only [Except.ok.injEq] at h
          rw [← h]
          simp [pack_u16_ok_length a w h1, pack_u16_ok_length b x h2,
            pack_u16_ok_length c y h3, pack_u16_ok_length d z h4]

lemma bytes_truthy_of_length {bs : List ℕ} {n : ℕ} (h : bs.length = n) (hn : 0 < n) :
    (ReplyData.bytes bs).truthy = true := by
  cases bs
  · simp at h; omega
  · simp [ReplyData.truthy]

lemma handle_power_control_module_id (data : List ℕ) (st : DeviceState) :
    ((handle_power_control data st).1).module_id = st.module_id := by
  rcases data with _ | ⟨b, rest⟩
  · rfl
  · simp only [handle_power_control]
    split_ifs <;> rfl

lemma handle_set_output_module_id (data : List ℕ) (st : DeviceState) :
    ((handle_set_output data st).1).module_id = st.module_id := by
  unfold handle_set_output
  cases unpack_u32 (pySlice data 0 4) with
  | error e => rfl
  | ok v =>
    cases unpack_u32 (pySlice data 4 8) with
    | error e => rfl
    | ok c =>
      dsimp only
      split_ifs <;> rfl

lemma send_response_header (cmd : ℕ) (rd : ReplyData) (target mid : ℕ)
    (hc : cmd < 64) (ht : target < 256) (hm : mid < 256) :
    decode_err (send_response cmd rd target mid).canId = 0 ∧
    decode_device (send_response cmd rd target mid).canId = 0x0A ∧
    decode_cmd (send_response cmd rd target mid).canId = cmd ∧
    decode_dest (send_response cmd rd target mid).canId = target ∧
    decode_src (send_response cmd rd target mid).canId = mid :=
  decode_encode_fields (by norm_num) (by norm_num) hc ht hm

lemma route_respond_float (cmd : ℕ) (hc : cmd = 0x01 ∨ cmd = 0x03) (data : List ℕ)
    (r dm da : ℕ) (st : DeviceState) :
    route_and_respond cmd data r dm da st =
      (st, .ok (some (send_response cmd (handle_read_module_float st) r st.module_id))) := by
  rcases hc with hc | hc <;> subst hc <;>
    simp [route_and_respond, route_command, handle_read_system_float, handle_read_module_float,
      ReplyData.truthy]

lemma route_respond_status (data : List ℕ) (r dm da : ℕ) (st : DeviceState) :
    route_and_respond 0x04 data r dm da st =
      (st, .ok (some (send_response 0x04 (.bytes handle_read_status) r st.module_id))) := by
  simp [route_and_respond, route_command, handle_read_status, ReplyData.truthy]

lemma route_respond_fixed (cmd : ℕ) (hc : cmd = 0x08 ∨ cmd = 0x09) (data : List ℕ)
    (r dm da : ℕ) (st : DeviceState) :
    route_and_respond cmd data r dm da st =
      (match handle_read_system_fixed st with
      | .error e => (st, .error e)
      | .ok bs => (st, .ok (some (send_response cmd (.bytes bs) r st.module_id)))) := by
  cases h : handle_read_system_fixed st with
  | error e =>
    rcases hc with hc | hc <;> subst hc <;>
      simp [route_and_respond, route_command, handle_read_module_fixed, h, Except.map]
  | ok bs =>
    have hlen : bs.length = 8 := by
      apply pack_u32_pair_ok_length _ _ bs
      rw [← h]; rfl
    have ht := bytes_truthy_of_length hlen (by norm_num)
    rcases hc with hc | hc <;> subst hc <;>
      simp [route_and_respond, route_command, handle_read_module_fixed, h, ht, Except.map]

lemma route_respond_info (data : List ℕ) (r dm da : ℕ) (st : DeviceState) :
    route_and_respond 0x0A data r dm da st =
      (match handle_read_module_info st with
      | .error e => (st, .error e)
      | .ok bs => (st, .ok (some (send_response 0x0A (.bytes bs) r st.module_id)))) := by
  cases h : handle_read_module_info st with
  | error e => simp [route_and_respond, route_command, h, Except.map]
  | ok bs =>
    have hlen : bs.length = 8 := by
      apply pack_u16_quad_ok_length _ _ _ _ bs
      rw [← h]; rfl
    have ht := bytes_truthy_of_length hlen (by norm_num)
    simp [route_and_respond, route_command, h, ht, Except.map]

lemma route_respond_external (data : List ℕ) (r dm da : ℕ) (st : DeviceState) :
    route_and_respond 0x0C data r dm da st =
      (match handle_read_module_external st with
      | .error e => (st, .error e)
      | .ok bs => (st, .ok (some (send_response 0x0C (.bytes bs) r st.module_id)))) := by
  cases h : handle_read_module_external st with
  | error e => simp [route_and_respond, route_command, h, Except.map]
  | ok bs =>
    have hlen : bs.length = 8 := by
      apply pack_u16_quad_ok_length _ _ _ _ bs
      rw [← h]; rfl
    have ht := bytes_truthy_of_length hlen (by norm_num)
    simp [route_and_respond, route_command, h, ht, Except.map]

lemma route_respond_1A_err (data : List ℕ) (r dm da : ℕ) (st st1 : DeviceState) (e : PyErr)
    (hpc : handle_power_control data st = (st1, .error e)) :
    route_and_respond 0x1A data r dm da st = (st1, .error e) := by
  simp [route_and_respond, route_command, hpc]

lemma route_respond_1A_ok (data : List ℕ) (r dm da : ℕ) (st st1 : DeviceState) (u : Unit)
    (hpc : handle_power_control data st = (st1, .ok u)) :
    route_and_respond 0x1A data r dm da st =
      (st1, .ok (if dm = 0x0A ∧ da ≠ 0x3F then
        some (send_response 0x1A (.bytes (handle_read_power_state st1)) r st.module_id)
      else none)) := by
  have hm := handle_power_control_module_id data st
  rw [hpc] at hm
  replace hm : st1.module_id = st.module_id := hm
  by_cases hcond : dm = 0x0A ∧ da ≠ 0x3F
  · simp [route_and_respond, route_command, hpc, hcond, ReplyData.truthy,
      handle_read_power_state, hm]
  · simp [route_and_respond, route_command, hpc, hcond]

lemma route_respond_1B_err (data : List ℕ) (r dm da : ℕ) (st st1 : DeviceState) (e : PyErr)
    (hso : handle_set_output data st = (st1, .error e)) :
    route_and_respond 0x1B data r dm da st = (st1, .error e) := by
  simp [route_and_respond, route_command, hso]

lemma route_respond_1B_ok (data : List ℕ) (r dm da : ℕ) (st st1 : DeviceState) (u : Unit)
    (hso : handle_set_output data st = (st1, .ok u)) :
    route_and_respond 0x1B data r dm da st =
      (st1, match handle_read_output_setting st1 with
      | .error e => .error e
      | .ok bs => .ok (some (send_response 0x1B (.bytes bs) r st.module_id))) := by
  have hm := handle_set_output_module_id data st
  rw [hso] at hm
  replace hm : st1.module_id = st.module_id := hm
  cases hrd : handle_read_output_setting st1 with
  | error e => simp [route_and_respond, route_command, hso, hrd, Except.map]
  | ok bs =>
    have hlen : bs.length = 8 := by
      apply pack_u32_pair_ok_length _ _ bs
      rw [← hrd]; rfl
    have ht := bytes_truthy_of_length hlen (by norm_num)
    simp [route_and_respond, route_command, hso, hrd, ht, hm, Except.map]

lemma route_respond_1C_err (data : List ℕ) (r dm da : ℕ) (st st1 : DeviceState) (e : PyErr)
    (hso : handle_set_output data st = (st1, .error e)) :
    route_and_respond 0x1C data r dm da st = (st1, .error e) := by
  simp [route_and_respond, route_command, handle_set_output_fixed, hso]

lemma route_respond_1C_ok (data : List ℕ) (r dm da : ℕ) (st st1 : DeviceState) (u : Unit)
    (hso : handle_set_output data st = (st1, .ok u)) :
    route_and_respond 0x1C data r dm da st =
      (st1, if da ≠ 0x3F then
        (match handle_read_output_setting st1 with
        | .error e => .error e
        | .ok bs => .ok (some (send_response 0x1C (.bytes bs) r st.module_id)))
      else .ok none) := by
  have hm := handle_set_output_module_id data st
  rw [hso] at hm
  replace hm : st1.module_id = st.module_id := hm
  by_cases hda : da ≠ 0x3F
  · cases hrd : handle_read_output_setting st1 with
    | error e =>
      simp [route_and_respond, route_command, handle_set_output_fixed, hso, hrd, hda,
        Except.map]
    | ok bs =>
      have hlen : bs.length = 8 := by
        apply pack_u32_pair_ok_length _ _ bs
        rw [← hrd]; rfl
      have ht := bytes_truthy_of_length hlen (by norm_num)
      simp [route_and_respond, route_command, handle_set_output_fixed, hso, hrd, hda, ht, hm,
        Except.map]
  · simp [route_and_respond, route_command, handle_set_output_fixed, hso, hda]

lemma route_respond_default (cmd : ℕ) (data : List ℕ) (r dm da : ℕ) (st : DeviceState)
    (h : cmd ∉ ([0x01, 0x03, 0x04, 0x08, 0x09, 0x0A, 0x0C, 0x1A, 0x1B, 0x1C] : List ℕ)) :
    route_and_respond cmd data r dm da st = (st, .ok none) := by
  simp only [List.mem_cons, List.not_mem_nil, or_false, not_or] at h
  obtain ⟨h1, h3, h4, h8, h9, hA, hC, h1A, h1B, h1C⟩ := h
  simp [route_and_respond, route_command, h1, h3, h4, h8, h9, hA, hC, h1A, h1B, h1C]

/-- C4: for every frame whose routing completes normally, the reply
policy holds: 0x1A replies iff the scope is unicast (0x0A) and the
destination is not broadcast (0x3F), with the one-byte power state
(0x00 = on, 0x01 = off) padded to eight bytes; 0x1B always replies;
0x1C replies iff the destination is not broadcast; commands outside the
dispatch table never reply; and every transmitted reply carries
error-code 0, device-scope 0x0A, the echoed command, the request's
source as destination and the module id as source. -/
theorem c4_reply_rules (cmd : ℕ) (data : List ℕ) (remote_src device_mode dest_addr : ℕ)
    (st st2 : DeviceState) (fr : Option Frame)
    (hcmd : cmd < 64) (hsrc : remote_src < 256) (hmid : st.module_id < 256)
    (heq : route_and_respond cmd data remote_src device_mode dest_addr st = (st2, .ok fr)) :
    (cmd = 0x1A → (fr.isSome ↔ (device_mode = 0x0A ∧ dest_addr ≠ 0x3F))) ∧
    (cmd = 0x1B → fr.isSome) ∧
    (cmd = 0x1C → (fr.isSome ↔ dest_addr ≠ 0x3F)) ∧
    (cmd ∉ ([0x01, 0x03, 0x04, 0x08, 0x09, 0x0A, 0x0C, 0x1A, 0x1B, 0x1C] : List ℕ) →
      fr = none) ∧
    (cmd = 0x1A → ∀ f ∈ fr,
      f.data = .bytes [(if st2.is_power_on then 0x00 else 0x01), 0, 0, 0, 0, 0, 0, 0]) ∧
    (∀ f ∈ fr, decode_err f.canId = 0 ∧ decode_device f.canId = 0x0A ∧
      decode_cmd f.canId = cmd ∧ decode_dest f.canId = remote_src ∧
      decode_src f.canId = st.module_id) := by
  have h1Afact : cmd = 0x1A →
      ((fr.isSome ↔ (device_mode = 0x0A ∧ dest_addr ≠ 0x3F)) ∧
        (∀ f ∈ fr,
          f.data = .bytes [(if st2.is_power_on then 0x00 else 0x01), 0, 0, 0, 0, 0, 0, 0])) := by
    intro h; subst h
    cases hpc : handle_power_control data st with
    | mk st1 res =>
      cases res with
      | error e =>
        rw [route_respond_1A_err _ _ _ _ _ _ _ hpc] at heq
        simp at heq
      | ok u =>
        rw [route_respond_1A_ok _ _ _ _ _ _ _ hpc] at heq
        by_cases hcond : device_mode = 0x0A ∧ dest_addr ≠ 0x3F
        · rw [if_pos hcond] at heq
          simp only [Prod.mk.injEq, Except.ok.injEq] at heq
          obtain ⟨hst, hfr⟩ := heq
          subst hst
          constructor
          · simp [← hfr, hcond]
          · intro f hf
            rw [← hfr] at hf
            simp only [Option.mem_def, Option.some.injEq] at hf
            subst hf
            simp [send_response, handle_read_power_state]
        · rw [if_neg hcond] at heq
          simp only [Prod.mk.injEq, Except.ok.injEq] at heq
          obtain ⟨hst, hfr⟩ := heq
          constructor
          · simp [← hfr, hcond]
          · intro f hf
            rw [← hfr] at hf
            simp at hf
  have h1Bfact : cmd = 0x1B → fr.isSome = true := by
    intro h; subst h
    cases hso : handle_set_output data st with
    | mk st1 res =>
      cases res with
      | error e =>
        rw [route_respond_1B_err _ _ _ _ _ _ _ hso] at heq
        simp at heq
      | ok u =>
        rw [route_respond_1B_ok _ _ _ _ _ _ _ hso] at heq
        cases hrd : handle_read_output_setting st1 with
        | error e => rw [hrd] at heq; simp at heq
        | ok bs =>
          rw [hrd] at heq
          simp only [Prod.mk.injEq, Except.ok.injEq] at heq
          simp [← heq.2]
  have h1Cfact : cmd = 0x1C → (fr.isSome ↔ dest_addr ≠ 0x3F) := by
    intro h; subst h
    cases hso : handle_set_output data st with
    | mk st1 res =>
      cases res with
      | error e =>
        rw [route_respond_1C_err _ _ _ _ _ _ _ hso] at heq
        simp at heq
      | ok u =>
        rw [route_respond_1C_ok _ _ _ _ _ _ _ hso] at heq
        by_cases hda : dest_addr ≠ 0x3F
        · rw [if_pos hda] at heq
          cases hrd : handle_read_output_setting st1 with
          | error e => rw [hrd] at heq; simp at heq
          | ok bs =>
            rw [hrd] at heq
            simp only [Prod.mk.injEq, Except.ok.injEq] at heq
            simp [← heq.2, hda]
        · rw [if_neg hda] at heq
          simp only [Prod.mk.injEq, Except.ok.injEq] at heq
          simp [← heq.2, hda]
  have hdef : cmd ∉ ([0x01, 0x03, 0x04, 0x08, 0x09, 0x0A, 0x0C, 0x1A, 0x1B, 0x1C] : List ℕ) →
      fr = none := by
    intro h
    rw [route_respond_default cmd data remote_src device_mode dest_addr st h] at heq
    simp only [Prod.mk.injEq, Except.ok.injEq] at heq
    exact heq.2.symm
  have hhdr : ∀ f ∈ fr, decode_err f.canId = 0 ∧ decode_device f.canId = 0x0A ∧
      decode_cmd f.canId = cmd ∧ decode_dest f.canId = remote_src ∧
      decode_src f.canId = st.module_id := by
    intro f hf
    have hshape : ∃ rd, f = send_response cmd rd remote_src st.module_id := by
      by_cases hmem :
          cmd ∈ ([0x01, 0x03, 0x04, 0x08, 0x09, 0x0A, 0x0C, 0x1A, 0x1B, 0x1C] : List ℕ)
      case neg =>
        exfalso
        rw [hdef hmem] at hf
        simp at hf
      case pos =>
        simp only [List.mem_cons, List.not_mem_nil, or_false] at hmem
        rcases hmem with h | h | h | h | h | h | h | h | h | h
        · subst h
          rw [route_respond_float 0x01 (Or.inl rfl)] at heq
          simp only [Prod.mk.injEq, Except.ok.injEq] at heq
          rw [← heq.2] at hf
          simp only [Option.mem_def, Option.some.injEq] at hf
          exact ⟨_, hf.symm⟩
        · subst h
          rw [route_respond_float 0x03 (Or.inr rfl)] at heq
          simp only [Prod.mk.injEq, Except.ok.injEq] at heq
          rw [← heq.2] at hf
          simp only [Option.mem_def, Option.some.injEq] at hf
          exact ⟨_, hf.symm⟩
        · subst h
          rw [route_respond_status] at heq
          simp only [Prod.mk.injEq, Except.ok.injEq] at heq
          rw [← heq.2] at hf
          simp only [Option.mem_def, Option.some.injEq] at hf
          exact ⟨_, hf.symm⟩
        · subst h
          rw [route_respond_fixed 0x08 (Or.inl rfl)] at heq
          cases h8 : handle_read_system_fixed st with
          | error e => rw [h8] at heq; simp at heq
          | ok bs =>
            rw [h8] at heq
            simp only [Prod.mk.injEq, Except.ok.injEq] at heq
            rw [← heq.2] at hf
            simp only [Option.mem_def, Option.some.injEq] at hf
            exact ⟨_, hf.symm⟩
        · subst h
          rw [route_respond_fixed 0x09 (Or.inr rfl)] at heq
          cases h9 : handle_read_system_fixed st with
          | error e => rw [h9] at heq; simp at heq
          | ok bs =>
            rw [h9] at heq
            simp only [Prod.mk.injEq, Except.ok.injEq] at heq
            rw [← heq.2] at hf
            simp only [Option.mem_def, Option.some.injEq] at hf
            exact ⟨_, hf.symm⟩
        · subst h
          rw [route_respond_info] at heq
          cases hA : handle_read_module_info st with
          | error e => rw [hA] at heq; simp at heq
          | ok bs =>
            rw [hA] at heq
            simp only [Prod.mk.injEq, Except.ok.injEq] at heq
            rw [← heq.2] at hf
            simp only [Option.mem_def, Option.some.injEq] at hf
            exact ⟨_, hf.symm⟩
        · subst h
          rw [route_respond_external] at heq
          cases hC : handle_read_module_external st with
          | error e => rw [hC] at heq; simp at heq
          | ok bs =>
            rw [hC] at heq
            simp only [Prod.mk.injEq, Except.ok.injEq] at heq
            rw [← heq.2] at hf
            simp only [Option.mem_def, Option.some.injEq] at hf
            exact ⟨_, hf.symm⟩
        · subst h
          cases hpc : handle_power_control data st with
          | mk st1 res =>
            cases res with
            | error e =>
              rw [route_respond_1A_err _ _ _ _ _ _ _ hpc] at heq
              simp at heq
            | ok u =>
              rw [route_respond_1A_ok _ _ _ _ _ _ _ hpc] at heq
              by_cases hcond : device_mode = 0x0A ∧ dest_addr ≠ 0x3F
              · rw [if_pos hcond] at heq
                simp only [Prod.mk.injEq, Except.ok.injEq] at heq
                rw [← heq.2] at hf
                simp only [Option.mem_def, Option.some.injEq] at hf
                exact ⟨_, hf.symm⟩
              · rw [if_neg hcond] at heq
                simp only [Prod.mk.injEq, Except.ok.injEq] at heq
                rw [← heq.2] at hf
                simp at hf
        · subst h
          cases hso : handle_set_output data st with
          | mk st1 res =>
            cases res with
            | error e =>
              rw [route_respond_1B_err _ _ _ _ _ _ _ hso] at heq
              simp at heq
            | ok u =>
              rw [route_respond_1B_ok _ _ _ _ _ _ _ hso] at heq
              cases hrd : handle_read_output_setting st1 with
              | error e => rw [hrd] at heq; simp at heq
              | ok bs =>
                rw [hrd] at heq
                simp only [Prod.mk.injEq, Except.ok.injEq] at heq
                rw [← heq.2] at hf
                simp only [Option.mem_def, Option.some.injEq] at hf
                exact ⟨_, hf.symm⟩
        · subst h
          cases hso : handle_set_output data st with
          | mk st1 res =>
            cases res with
            | error e =>
              rw [route_respond_1C_err _ _ _ _ _ _ _ hso] at heq
              simp at heq
            | ok u =>
              rw [route_respond_1C_ok _ _ _ _ _ _ _ hso] at heq
              by_cases hda : dest_addr ≠ 0x3F
              · rw [if_pos hda] at heq
                cases hrd : handle_read_output_setting st1 with
                | error e => rw [hrd] at heq; simp at heq
                | ok bs =>
                  rw [hrd] at heq
                  simp only [Prod.mk.injEq, Except.ok.injEq] at heq
                  rw [← heq.2] at hf
                  simp only [Option.mem_def, Option.some.injEq] at hf
                  exact ⟨_, hf.symm⟩
              · rw [if_neg hda] at heq
                simp only [Prod.mk.injEq, Except.ok.injEq] at heq
                rw [← heq.2] at hf
                simp at hf
    obtain ⟨rd, hfd⟩ := hshape
    subst hfd
    exact send_response_header cmd rd remote_src st.module_id hcmd hsrc hmid
  exact ⟨fun h => (h1Afact h).1, h1Bfact, h1Cfact, hdef, fun h => (h1Afact h).2, hhdr⟩

/-- Witness for C4: command 0x05 (outside the dispatch table) at the
default state, which routes normally and produces no reply. -/
theorem c4_reply_rules_witness :
    ((0x05 : ℕ) = 0x1A →
      ((none : Option Frame).isSome ↔ ((0x0A : ℕ) = 0x0A ∧ (0x00 : ℕ) ≠ 0x3F))) ∧
    ((0x05 : ℕ) = 0x1B → (none : Option Frame).isSome) ∧
    ((0x05 : ℕ) = 0x1C → ((none : Option Frame).isSome ↔ (0x00 : ℕ) ≠ 0x3F)) ∧
    ((0x05 : ℕ) ∉ ([0x01, 0x03, 0x04, 0x08, 0x09, 0x0A, 0x0C, 0x1A, 0x1B, 0x1C] : List ℕ) →
      (none : Option Frame) = none) ∧
    ((0x05 : ℕ) = 0x1A → ∀ f ∈ (none : Option Frame),
      f.data = .bytes [(if initial_state.is_power_on then 0x00 else 0x01),
        0, 0, 0, 0, 0, 0, 0]) ∧
    (∀ f ∈ (none : Option Frame), decode_err f.canId = 0 ∧ decode_device f.canId = 0x0A ∧
      decode_cmd f.canId = 0x05 ∧ decode_dest f.canId = 0xF0 ∧
      decode_src f.canId = initial_state.module_id) :=
  c4_reply_rules 0x05 [] 0xF0 0x0A 0x00 initial_state initial_state none
    (by norm_num) (by norm_num) (by decide)
    (route_respond_default 0x05 [] 0xF0 0x0A 0x00 initial_state (by decide))
